import Mathlib

/-!
Verification development for the longview retirement-projection engine.

The Python source (backend/app/services) is shallowly embedded below over
exact rational arithmetic.  Every euro amount, age and rate is a `ℚ`.
Library functions that compute irrational values (`math.sqrt`,
`NormalDist().inv_cdf`) are taken as explicit function parameters of the
embedding: a definition that needs the square root receives a
`sqrtQ : ℚ → ℚ` argument standing for the float implementation, and the
theorems below hold for every such implementation (or instantiate it
concretely where only specific arguments are ever passed).

Python's global `random` module is modelled as a stream `g : ℕ → ℚ` of
standard-normal draws together with a cursor: `random.gauss(mu, sigma)` is
`mu + sigma * g k`, advancing the cursor.  This captures the one property
the claims are about: all simulation paths consume draws sequentially from
one shared process-global generator.
-/

namespace Longview

/-- Python truthiness-based `x or y` on floats: `0.0` is falsy. -/
def pyOr (x y : ℚ) : ℚ := if x = 0 then y else x

/-- Models `value or 0.0` applied to an `Optional[float]` field. -/
def orZero (x : Option ℚ) : ℚ := x.getD 0

/-- Python `int(q)` for the nonnegative rationals produced here (truncation). -/
def pyInt (q : ℚ) : ℤ := if 0 ≤ q then ⌊q⌋ else -⌊-q⌋

/-- Strict aberrance bound used throughout the decumulation code (`1e12`). -/
def ABERRANT_LIMIT : ℚ := 10 ^ 12

/- ### Schema (app/schemas/projections.py) -/

/-- `InvestmentAccountType` enumeration. -/
inductive InvestmentAccountType
  | pea
  | per
  | assurance_vie
  | livret
  | crypto
  | cto
  | autre
deriving DecidableEq

/-- `InvestmentAccount`, restricted to the fields the core engine reads. -/
structure InvestmentAccount where
  type : InvestmentAccountType
  current_amount : ℚ
  monthly_contribution : Option ℚ := none
  monthly_contribution_share : Option ℚ := none
  allocation_actions : Option ℚ := none
  allocation_obligations : Option ℚ := none
  expected_performance : Option ℚ := none
  opening_date_age : Option ℚ := none
  initial_cost_basis : Option ℚ := none
deriving DecidableEq

/-- `AdultProfile` (ages in years). -/
structure AdultProfile where
  current_age : ℚ
  retirement_age : ℚ
  life_expectancy : Option ℚ := none
deriving DecidableEq

/-- `SavingsPhase`. -/
structure SavingsPhase where
  from_age : ℚ
  to_age : ℚ
  monthly_contribution : ℚ
deriving DecidableEq

/-- `MarketAssetAssumption` (annual percent figures). -/
structure MarketAssetAssumption where
  expected_return : ℚ
  volatility : Option ℚ := none
deriving DecidableEq

/-- The fixed asset-class ordering of `correlations.ASSET_KEYS`. -/
inductive AssetKey
  | equities
  | bonds
  | livrets
  | crypto
  | other
deriving DecidableEq

/-- `ASSET_KEYS = ["equities", "bonds", "livrets", "crypto", "other"]`. -/
def ASSET_KEYS : List AssetKey :=
  [.equities, .bonds, .livrets, .crypto, .other]

/-- Position of a key inside `ASSET_KEYS`. -/
def assetIndex : AssetKey → ℕ
  | .equities => 0
  | .bonds => 1
  | .livrets => 2
  | .crypto => 3
  | .other => 4

/-- `MarketAssumptions`: asset-class dict, correlation dict and inflation. -/
structure MarketAssumptions where
  inflation_mean : Option ℚ := none
  inflation_volatility : Option ℚ := none
  asset_classes : AssetKey → Option MarketAssetAssumption
  correlations : AssetKey → AssetKey → Option ℚ

/- ### Taxation engine (app/services/taxation.py) -/

/-- `DEPOSIT_LIMITS` per account type (euros); `none` means no ceiling. -/
def get_deposit_limit : InvestmentAccountType → Option ℚ
  | .pea => some 150000
  | .livret => some 22950
  | _ => none

/-- `SOCIAL_CONTRIBUTIONS_RATE = 0.172`. -/
def SOCIAL_CONTRIBUTIONS_RATE : ℚ := 172 / 1000

/-- `FLAT_TAX_RATE = 0.128`. -/
def FLAT_TAX_RATE : ℚ := 128 / 1000

/-- `ASSURANCE_VIE_ABATTEMENT_SINGLE = 4600`. -/
def ASSURANCE_VIE_ABATTEMENT_SINGLE : ℚ := 4600

/-- `ASSURANCE_VIE_ABATTEMENT_COUPLE = 9200`. -/
def ASSURANCE_VIE_ABATTEMENT_COUPLE : ℚ := 9200

/-- `ASSURANCE_VIE_TAX_RATE_AFTER_8Y = 0.075`. -/
def ASSURANCE_VIE_TAX_RATE_AFTER_8Y : ℚ := 75 / 1000

/-- `check_deposit_limit(account, current_balance, new_contribution)`. -/
def check_deposit_limit (account : InvestmentAccount)
    (current_balance new_contribution : ℚ) : Bool × ℚ :=
  match get_deposit_limit account.type with
  | none => (true, new_contribution)
  | some limit =>
    if current_balance + new_contribution ≤ limit then
      (true, new_contribution)
    else
      let allowed := max 0 (limit - current_balance)
      (decide (allowed > 0), allowed)

/-- `AccountTaxState` (the account's `current_amount` is kept in sync with
the simulator's balance, exactly as the Python code reassigns it before
every tax computation). -/
structure AccountTaxState where
  account : InvestmentAccount
  cost_basis : ℚ
  total_contributions : ℚ
  opening_age : ℚ
  current_age : ℚ
deriving DecidableEq

/-- `WithdrawalTaxResult`. -/
structure WithdrawalTaxResult where
  gross_withdrawal : ℚ
  capital_gain : ℚ
  income_tax : ℚ
  social_contributions : ℚ
  net_withdrawal : ℚ
  effective_tax_rate : ℚ
deriving DecidableEq

/-- `calculate_capital_gain(withdrawal_amount, account_state)`. -/
def calculate_capital_gain (withdrawal_amount : ℚ) (s : AccountTaxState) : ℚ :=
  if s.cost_basis ≤ 0 then withdrawal_amount
  else
    let current_value := s.account.current_amount
    if current_value ≤ 0 then 0
    else
      let gain_ratio := max 0 ((current_value - s.cost_basis) / current_value)
      withdrawal_amount * gain_ratio

/-- `calculate_pea_tax(capital_gain, account_age_years, tmi)`. -/
def calculate_pea_tax (capital_gain account_age_years : ℚ) : ℚ × ℚ :=
  let income_tax := if account_age_years < 5 then capital_gain * FLAT_TAX_RATE else 0
  (income_tax, capital_gain * SOCIAL_CONTRIBUTIONS_RATE)

/-- `calculate_per_tax(capital_gain, withdrawal_amount, account_state, tmi)`. -/
def calculate_per_tax (capital_gain : ℚ) : ℚ × ℚ :=
  (capital_gain * FLAT_TAX_RATE, capital_gain * SOCIAL_CONTRIBUTIONS_RATE)

/-- `calculate_assurance_vie_tax(capital_gain, account_age_years, is_couple, tmi)`. -/
def calculate_assurance_vie_tax (capital_gain account_age_years : ℚ)
    (is_couple : Bool) : ℚ × ℚ :=
  let social_contributions := capital_gain * SOCIAL_CONTRIBUTIONS_RATE
  if account_age_years < 8 then
    (capital_gain * FLAT_TAX_RATE, social_contributions)
  else
    let abattement :=
      if is_couple then ASSURANCE_VIE_ABATTEMENT_COUPLE
      else ASSURANCE_VIE_ABATTEMENT_SINGLE
    let taxable_gain := max 0 (capital_gain - abattement)
    (taxable_gain * ASSURANCE_VIE_TAX_RATE_AFTER_8Y, social_contributions)

/-- `calculate_livret_tax`. -/
def calculate_livret_tax : ℚ × ℚ := (0, 0)

/-- `calculate_cto_tax(capital_gain, account_age_years, tmi)`. -/
def calculate_cto_tax (capital_gain : ℚ) : ℚ × ℚ :=
  (capital_gain * FLAT_TAX_RATE, capital_gain * SOCIAL_CONTRIBUTIONS_RATE)

/-- `calculate_crypto_tax(capital_gain, account_age_years)`. -/
def calculate_crypto_tax (capital_gain : ℚ) : ℚ × ℚ :=
  (capital_gain * FLAT_TAX_RATE, capital_gain * SOCIAL_CONTRIBUTIONS_RATE)

/-- `calculate_withdrawal_tax(withdrawal_amount, account_state, current_age,
tmi, is_couple)`; `tmi` is accepted but unused by every branch, as in the
source. -/
def calculate_withdrawal_tax (withdrawal_amount : ℚ) (s : AccountTaxState)
    (current_age : ℚ) (_tmi : Option ℚ) (is_couple : Bool) :
    WithdrawalTaxResult :=
  let account_age_years := current_age - s.opening_age
  let capital_gain := calculate_capital_gain withdrawal_amount s
  let taxes :=
    match s.account.type with
    | .pea => calculate_pea_tax capital_gain account_age_years
    | .per => calculate_per_tax capital_gain
    | .assurance_vie => calculate_assurance_vie_tax capital_gain account_age_years is_couple
    | .livret => calculate_livret_tax
    | .cto => calculate_cto_tax capital_gain
    | .crypto => calculate_crypto_tax capital_gain
    | .autre => (capital_gain * FLAT_TAX_RATE, capital_gain * SOCIAL_CONTRIBUTIONS_RATE)
  let income_tax := taxes.1
  let social_contributions := taxes.2
  let total_tax := income_tax + social_contributions
  { gross_withdrawal := withdrawal_amount
    capital_gain := capital_gain
    income_tax := income_tax
    social_contributions := social_contributions
    net_withdrawal := withdrawal_amount - total_tax
    effective_tax_rate :=
      if withdrawal_amount > 0 then total_tax / withdrawal_amount else 0 }

/-- `update_cost_basis_after_contribution(account_state, contribution)`. -/
def update_cost_basis_after_contribution (s : AccountTaxState)
    (contribution : ℚ) : AccountTaxState :=
  let old_balance := s.account.current_amount
  let new_balance := old_balance + contribution
  let new_cost_basis :=
    if new_balance > 0 then
      (s.cost_basis * old_balance + contribution) / new_balance
    else 0
  { account := { s.account with current_amount := new_balance }
    cost_basis := new_cost_basis
    total_contributions := s.total_contributions + contribution
    opening_age := s.opening_age
    current_age := s.current_age }

/-- `update_cost_basis_after_withdrawal(account_state, withdrawal_amount)`. -/
def update_cost_basis_after_withdrawal (s : AccountTaxState)
    (withdrawal_amount : ℚ) : AccountTaxState :=
  let new_balance := max 0 (s.account.current_amount - withdrawal_amount)
  let new_cost_basis := if new_balance = 0 then 0 else s.cost_basis
  { account := { s.account with current_amount := new_balance }
    cost_basis := new_cost_basis
    total_contributions := s.total_contributions
    opening_age := s.opening_age
    current_age := s.current_age }

/-- `initialize_account_tax_state(account, current_age)`. -/
def initialize_account_tax_state (account : InvestmentAccount)
    (current_age : ℚ) : AccountTaxState :=
  let opening_age := account.opening_date_age.getD current_age
  let estimate := if account.current_amount > 0 then account.current_amount * (7/10) else 0
  let cost_basis :=
    match account.initial_cost_basis with
    | some icb => if icb > 0 then icb else estimate
    | none => estimate
  { account := account
    cost_basis := cost_basis
    total_contributions := account.current_amount
    opening_age := opening_age
    current_age := current_age }

/- ### Deterministic capitalization helpers (app/services/capitalization.py) -/

/-- `AccountState` of the simulators: the account plus its running balance. -/
structure AccountState where
  account : InvestmentAccount
  balance : ℚ
deriving DecidableEq

/-- `DEFAULT_ASSET_RETURNS` (annual percent). -/
def DEFAULT_ASSET_RETURNS : AssetKey → ℚ
  | .equities => 7
  | .bonds => 3
  | .livrets => 3/2
  | .crypto => 15
  | .other => 9/2

/-- `_asset_expected_return(asset_classes, key)` (decimal annual rate). -/
def _asset_expected_return (asset_classes : AssetKey → Option MarketAssetAssumption)
    (key : AssetKey) : ℚ :=
  match asset_classes key with
  | some assumption => assumption.expected_return / 100
  | none => DEFAULT_ASSET_RETURNS key / 100

/-- `_account_tax_rate(account)`: the immediate growth-tax drag. -/
def _account_tax_rate (account : InvestmentAccount) : ℚ :=
  match account.type with
  | .pea => 172/1000
  | .per => 172/1000
  | .crypto => 3/10
  | .cto => 3/10
  | _ => 0

/-- `_account_gross_monthly_return(account, asset_classes)`. -/
def _account_gross_monthly_return (account : InvestmentAccount)
    (asset_classes : AssetKey → Option MarketAssetAssumption) : ℚ :=
  match account.type with
  | .pea => _asset_expected_return asset_classes .equities / 12
  | .cto => _asset_expected_return asset_classes .equities / 12
  | .per =>
      let actions := orZero account.allocation_actions / 100
      let obligations := orZero account.allocation_obligations / 100
      let remaining := max 0 (1 - actions - obligations)
      (actions * _asset_expected_return asset_classes .equities
        + obligations * _asset_expected_return asset_classes .bonds
        + remaining * _asset_expected_return asset_classes .other) / 12
  | .assurance_vie =>
      let actions := orZero account.allocation_actions / 100
      let obligations := orZero account.allocation_obligations / 100
      let remaining := max 0 (1 - actions - obligations)
      (actions * _asset_expected_return asset_classes .equities
        + obligations * _asset_expected_return asset_classes .bonds
        + remaining * _asset_expected_return asset_classes .other) / 12
  | .livret => _asset_expected_return asset_classes .livrets / 12
  | .crypto =>
      (match account.expected_performance with
       | some performance => performance / 100
       | none => _asset_expected_return asset_classes .crypto) / 12
  | .autre =>
      (match account.expected_performance with
       | some performance => performance / 100
       | none => _asset_expected_return asset_classes .other) / 12

/-- `_active_monthly_contribution(phases, accounts, age)`: the code sums the
active savings phases into a local that is then discarded, and returns only
the explicit per-account sum. -/
def _active_monthly_contribution (phases : List SavingsPhase)
    (accounts : List InvestmentAccount) (age : ℚ) : ℚ :=
  let _phase_total :=
    ((phases.filter (fun phase => decide (phase.from_age ≤ age ∧ age < phase.to_age))).map
      (fun phase => phase.monthly_contribution)).sum
  (accounts.map (fun account => max (orZero account.monthly_contribution) 0)).sum

/-- The body of the final adjustment loop of `_distribute_contributions`
(the per-account deposit-limit pass at the end of the function). -/
def finalContributionStep (s : AccountState) (proposed_amount : ℚ) : ℚ :=
  let explicit_contribution := orZero s.account.monthly_contribution
  if explicit_contribution = 0 then 0
  else if proposed_amount ≤ 0 then 0
  else
    let checked := check_deposit_limit s.account s.balance proposed_amount
    if checked.1 then min proposed_amount checked.2 else 0

/-- `_distribute_contributions(accounts, total_contribution)`. -/
def _distribute_contributions (accounts : List AccountState)
    (total_contribution : ℚ) : List ℚ :=
  if accounts = [] then []
  else if total_contribution ≤ 0 then accounts.map (fun _ => 0)
  else
    let explicit_amounts :=
      accounts.map (fun s => max (orZero s.account.monthly_contribution) 0)
    let explicit_total := explicit_amounts.sum
    let proposed :=
      if explicit_total > 0 then
        let actual_total := min total_contribution explicit_total
        let scale := if explicit_total > 0 then actual_total / explicit_total else 0
        explicit_amounts.map (fun amount => amount * scale)
      else
        let share_sum :=
          (accounts.map (fun s => orZero s.account.monthly_contribution_share)).sum
        if share_sum > 0 then
          accounts.map (fun s =>
            total_contribution * (orZero s.account.monthly_contribution_share / share_sum))
        else
          let eligible_count :=
            (accounts.filter (fun s => (check_deposit_limit s.account s.balance 1).1)).length
          if eligible_count > 0 then
            accounts.map (fun s =>
              if (check_deposit_limit s.account s.balance 1).1 then
                total_contribution / eligible_count
              else 0)
          else accounts.map (fun _ => 0)
    ((accounts.zip proposed).map (fun p => finalContributionStep p.1 p.2))

/- ### Correlations and the return sampler
(app/services/monte_carlo/correlations.py, returns.py) -/

/-- `DEFAULT_CORRELATIONS` table (off-diagonal entries only). -/
def DEFAULT_CORRELATIONS : AssetKey → AssetKey → Option ℚ
  | .equities, .bonds => some (3/10)
  | .equities, .livrets => some (5/100)
  | .equities, .crypto => some (4/10)
  | .equities, .other => some (6/10)
  | .bonds, .equities => some (3/10)
  | .bonds, .livrets => some (2/10)
  | .bonds, .crypto => some (1/10)
  | .bonds, .other => some (4/10)
  | .livrets, .equities => some (5/100)
  | .livrets, .bonds => some (2/10)
  | .livrets, .crypto => some (-(5/100))
  | .livrets, .other => some (1/10)
  | .crypto, .equities => some (4/10)
  | .crypto, .bonds => some (1/10)
  | .crypto, .livrets => some (-(5/100))
  | .crypto, .other => some (5/10)
  | .other, .equities => some (6/10)
  | .other, .bonds => some (4/10)
  | .other, .livrets => some (1/10)
  | .other, .crypto => some (5/10)
  | _, _ => none

/-- `get_correlation_value(key_i, key_j, correlations)`. -/
def get_correlation_value (key_i key_j : AssetKey)
    (correlations : AssetKey → AssetKey → Option ℚ) : ℚ :=
  if key_i = key_j then 1
  else
    match correlations key_i key_j with
    | some v => v
    | none =>
      match correlations key_j key_i with
      | some v => v
      | none =>
        match DEFAULT_CORRELATIONS key_i key_j with
        | some v => v
        | none =>
          match DEFAULT_CORRELATIONS key_j key_i with
          | some v => v
          | none => 0

/-- `build_covariance_matrix(keys, stds, correlations)`. -/
def build_covariance_matrix (keys : List AssetKey) (stds : List ℚ)
    (correlations : AssetKey → AssetKey → Option ℚ) : List (List ℚ) :=
  (List.range keys.length).map (fun i =>
    (List.range keys.length).map (fun j =>
      if i = j then (stds.getD i 0) ^ 2
      else
        get_correlation_value (keys.getD i .equities) (keys.getD j .equities) correlations
          * stds.getD i 0 * stds.getD j 0))

/-- `cholesky_decomposition(matrix)`: `Except.error ()` models the
`ValueError` raised when the matrix is not positive definite.  Rows are
built left to right; short rows stand for the zero-padded lower triangle
(consumers read missing entries as 0).  `sqrtQ` models `math.sqrt`. -/
def cholesky_decomposition (sqrtQ : ℚ → ℚ) (matrix : List (List ℚ)) :
    Except Unit (List (List ℚ)) :=
  (List.range matrix.length).foldlM (fun lower i =>
    ((List.range (i + 1)).foldlM (fun (row : List ℚ) j =>
      let sum_value :=
        ((List.range j).map (fun k => row.getD k 0 * (lower.getD j []).getD k 0)).sum
      if i = j then
        let value := (matrix.getD i []).getD i 0 - sum_value
        if value ≤ 0 then Except.error ()
        else Except.ok (row ++ [sqrtQ value])
      else
        let ljj := (lower.getD j []).getD j 0
        if ljj = 0 then Except.error ()
        else Except.ok (row ++ [((matrix.getD i []).getD j 0 - sum_value) / ljj])) []).map
      (fun row => lower ++ [row])) []

/-- `compute_asset_monthly_mean(asset_classes, key)`. -/
def compute_asset_monthly_mean (asset_classes : AssetKey → Option MarketAssetAssumption)
    (key : AssetKey) : ℚ :=
  _asset_expected_return asset_classes key / 12

/-- `DEFAULT_VOLATILITIES` (annual percent). -/
def DEFAULT_VOLATILITIES : AssetKey → ℚ
  | .equities => 15
  | .bonds => 6
  | .livrets => 1/2
  | .crypto => 80
  | .other => 10

/-- `compute_asset_monthly_std(asset_classes, key)`; `sqrtQ` models
`math.sqrt` (only ever applied to 12 here). -/
def compute_asset_monthly_std (sqrtQ : ℚ → ℚ)
    (asset_classes : AssetKey → Option MarketAssetAssumption) (key : AssetKey) : ℚ :=
  let annual_vol :=
    match asset_classes key with
    | some assumption =>
      match assumption.volatility with
      | some v => v / 100
      | none => DEFAULT_VOLATILITIES key / 100
    | none => DEFAULT_VOLATILITIES key / 100
  annual_vol / sqrtQ 12

/-- `sample_monthly_asset_returns(market_assumptions)`: one monthly draw of
correlated real returns.  `g` is the shared global gaussian stream, `ctr`
the cursor into it (there is no seed parameter in the source either: the
draws come from the process-global `random` module).  Returns the sampled
per-asset returns and the advanced cursor. -/
def sample_monthly_asset_returns (sqrtQ : ℚ → ℚ) (g : ℕ → ℚ)
    (market_assumptions : Option MarketAssumptions) (ctr : ℕ) :
    (AssetKey → ℚ) × ℕ :=
  let asset_classes :=
    match market_assumptions with
    | some m => m.asset_classes
    | none => fun _ => none
  let correlations :=
    match market_assumptions with
    | some m => m.correlations
    | none => fun _ _ => none
  let n := ASSET_KEYS.length
  let means := ASSET_KEYS.map (compute_asset_monthly_mean asset_classes)
  let stds := ASSET_KEYS.map (compute_asset_monthly_std sqrtQ asset_classes)
  let covariance := build_covariance_matrix ASSET_KEYS stds correlations
  let correlated :=
    match cholesky_decomposition sqrtQ covariance with
    | .ok cholesky =>
      let normals := (List.range n).map (fun k => g (ctr + k))
      (List.range n).map (fun i =>
        means.getD i 0
          + ((List.range n).map (fun k =>
              (cholesky.getD i []).getD k 0 * normals.getD k 0)).sum)
    | .error _ =>
      (List.range n).map (fun i => means.getD i 0 + stds.getD i 0 * g (ctr + i))
  let ctr1 := ctr + n
  let base : AssetKey → ℚ := fun key => correlated.getD (assetIndex key) 0
  let inflation_mean :=
    match market_assumptions with
    | some m => orZero m.inflation_mean
    | none => 0
  let inflation_vol :=
    match market_assumptions with
    | some m => orZero m.inflation_volatility
    | none => 0
  if inflation_mean ≠ 0 ∨ inflation_vol ≠ 0 then
    let monthly_mean := inflation_mean / 100 / 12
    let monthly_std := inflation_vol / 100 / sqrtQ 12
    let inflation_sample := monthly_mean + monthly_std * g ctr1
    (fun key => base key - inflation_sample, ctr1 + 1)
  else (base, ctr1)

/-- The `adjust_return` closure of
`compute_account_gross_return_from_sample`: recenter and clamp to ±30%. -/
def adjust_return (sample base_mean target_mean : ℚ) : ℚ :=
  max (-(3/10)) (min (3/10) (sample + (target_mean - base_mean)))

/-- `compute_account_gross_return_from_sample(account, base_returns,
asset_classes)`. -/
def compute_account_gross_return_from_sample (account : InvestmentAccount)
    (base_returns : AssetKey → ℚ)
    (asset_classes : AssetKey → Option MarketAssetAssumption) : ℚ :=
  match account.type with
  | .pea =>
      adjust_return (base_returns .equities)
        (compute_asset_monthly_mean asset_classes .equities)
        (_account_gross_monthly_return account asset_classes)
  | .cto =>
      adjust_return (base_returns .equities)
        (compute_asset_monthly_mean asset_classes .equities)
        (_account_gross_monthly_return account asset_classes)
  | .per =>
      let actions := orZero account.allocation_actions / 100
      let obligations := orZero account.allocation_obligations / 100
      let remaining := max 0 (1 - actions - obligations)
      adjust_return
        (actions * base_returns .equities + obligations * base_returns .bonds
          + remaining * base_returns .other)
        (actions * compute_asset_monthly_mean asset_classes .equities
          + obligations * compute_asset_monthly_mean asset_classes .bonds
          + remaining * compute_asset_monthly_mean asset_classes .other)
        (_account_gross_monthly_return account asset_classes)
  | .assurance_vie =>
      let actions := orZero account.allocation_actions / 100
      let obligations := orZero account.allocation_obligations / 100
      let remaining := max 0 (1 - actions - obligations)
      adjust_return
        (actions * base_returns .equities + obligations * base_returns .bonds
          + remaining * base_returns .other)
        (actions * compute_asset_monthly_mean asset_classes .equities
          + obligations * compute_asset_monthly_mean asset_classes .bonds
          + remaining * compute_asset_monthly_mean asset_classes .other)
        (_account_gross_monthly_return account asset_classes)
  | .livret =>
      adjust_return (base_returns .livrets)
        (compute_asset_monthly_mean asset_classes .livrets)
        (_account_gross_monthly_return account asset_classes)
  | .crypto =>
      adjust_return (base_returns .crypto)
        (compute_asset_monthly_mean asset_classes .crypto)
        (_account_gross_monthly_return account asset_classes)
  | .autre =>
      adjust_return (base_returns .other)
        (compute_asset_monthly_mean asset_classes .other)
        (_account_gross_monthly_return account asset_classes)

/-- `compute_account_return_from_asset_sample(account, base_returns,
asset_classes)`: gross return times the immediate tax drag. -/
def compute_account_return_from_asset_sample (account : InvestmentAccount)
    (base_returns : AssetKey → ℚ)
    (asset_classes : AssetKey → Option MarketAssetAssumption) : ℚ :=
  compute_account_gross_return_from_sample account base_returns asset_classes
    * (1 - _account_tax_rate account)

/- ### Accumulation single run (app/services/monte_carlo/simulation.py) -/

/-- The payload fields of `MonteCarloInput` read by `_simulate_single_run`. -/
structure CapPayload where
  adults : List AdultProfile
  savings_phases : List SavingsPhase
  investment_accounts : List InvestmentAccount
  market_assumptions : Option MarketAssumptions

/-- Running state of one accumulation path. -/
structure CapRunState where
  accounts : List AccountState
  monthly_totals : List ℚ
  monthly_contributions : List ℚ
  cumulative_contribution : ℚ
  total_contributions_added : ℚ
  ctr : ℕ

/-- One month of `_simulate_single_run`: distribute contributions, draw one
correlated return sample from the shared stream, then apply contribution
and growth per account. -/
def capMonthStep (sqrtQ : ℚ → ℚ) (g : ℕ → ℚ) (payload : CapPayload)
    (month_index : ℕ) (st : CapRunState) : CapRunState :=
  let current_age :=
    match payload.adults with
    | adult :: _ => adult.current_age
    | [] => 0
  let age := current_age + (month_index : ℚ) / 12
  let asset_classes :=
    match payload.market_assumptions with
    | some m => m.asset_classes
    | none => fun _ => none
  let active_contribution :=
    _active_monthly_contribution payload.savings_phases
      (st.accounts.map (fun s => s.account)) age
  let contributions := _distribute_contributions st.accounts active_contribution
  let sampled := sample_monthly_asset_returns sqrtQ g payload.market_assumptions st.ctr
  let base_returns := sampled.1
  let accounts' :=
    (st.accounts.zip contributions).map (fun p =>
      let balance := p.1.balance + p.2
      let monthly_return :=
        compute_account_return_from_asset_sample p.1.account base_returns asset_classes
      { account := p.1.account, balance := balance * (1 + monthly_return) })
  let month_contribution := contributions.sum
  let cumulative := st.cumulative_contribution + month_contribution
  { accounts := accounts'
    monthly_totals := st.monthly_totals ++ [(accounts'.map (fun s => s.balance)).sum]
    monthly_contributions := st.monthly_contributions ++ [cumulative]
    cumulative_contribution := cumulative
    total_contributions_added := st.total_contributions_added + month_contribution
    ctr := sampled.2 }

/-- `_simulate_single_run(payload, total_months)`, threading the shared
global generator cursor. -/
def _simulate_single_run (sqrtQ : ℚ → ℚ) (g : ℕ → ℚ) (payload : CapPayload)
    (total_months : ℕ) (ctr : ℕ) : CapRunState :=
  let accounts :=
    payload.investment_accounts.map (fun account =>
      { account := account, balance := account.current_amount })
  let start : CapRunState :=
    { accounts := accounts
      monthly_totals := []
      monthly_contributions := []
      cumulative_contribution := (accounts.map (fun s => s.balance)).sum
      total_contributions_added := 0
      ctr := ctr }
  (List.range total_months).foldl
    (fun st month_index => capMonthStep sqrtQ g payload month_index st) start

/-- `final_capital` of a run: last monthly total, or the cumulative
contribution when no month was simulated. -/
def capFinalCapital (st : CapRunState) : ℚ :=
  st.monthly_totals.getLastD st.cumulative_contribution

/- ### Statistics (app/services/monte_carlo/statistics.py) -/

/-- Insert into an ascending list (used to model Python `sorted`). -/
def insertAsc (x : ℚ) : List ℚ → List ℚ
  | [] => [x]
  | y :: ys => if x ≤ y then x :: y :: ys else y :: insertAsc x ys

/-- Ascending sort modelling Python `sorted`. -/
def sortAsc (l : List ℚ) : List ℚ := l.foldr insertAsc []

/-- `compute_percentile_from_sorted(sorted_vals, p)`. -/
def compute_percentile_from_sorted (sorted_vals : List ℚ) (p : ℚ) : ℚ :=
  match sorted_vals with
  | [] => 0
  | [x] => x
  | _ =>
    let n := sorted_vals.length
    let index := pyInt (p * ((n : ℚ) - 1))
    let index := max 0 (min ((n : ℤ) - 1) index)
    sorted_vals.getD index.toNat 0

/-- The accumulation driver's aggregation (simulation.py final-capital
statistics): percentiles are computed from the sorted but UNFILTERED list
of final capitals. -/
def capMCPercentile (results : List ℚ) (p : ℚ) : ℚ :=
  compute_percentile_from_sorted (sortAsc results) p

/-- The retirement driver's aggregation (retirement.py final-capital
statistics): aberrant values outside `[0, 1e12)` are filtered out first,
and an all-filtered list is replaced by `[0.0]`. -/
def retMCPercentile (results : List ℚ) (p : ℚ) : ℚ :=
  let filtered := results.filter (fun r => decide (0 ≤ r ∧ r < ABERRANT_LIMIT))
  let sorted_results := if filtered = [] then [0] else sortAsc filtered
  compute_percentile_from_sorted sorted_results p

/-- `statistics.fmean` (population mean). -/
def fmean (values : List ℚ) : ℚ := values.sum / values.length

/-- `statistics.pvariance` (population variance). -/
def pvariance (values : List ℚ) : ℚ :=
  ((values.map (fun x => (x - fmean values) ^ 2)).sum) / values.length

/-- `statistics.pstdev`, with `sqrtQ` modelling the float square root. -/
def pstdev (sqrtQ : ℚ → ℚ) (values : List ℚ) : ℚ := sqrtQ (pvariance values)

/-- `get_z_value(confidence_level)`; `invCdf` models
`NormalDist().inv_cdf`, applied at `0.5 + confidence_level / 2`. -/
def get_z_value (invCdf : ℚ → ℚ) (confidence_level : ℚ) : Option ℚ :=
  if 1/2 < confidence_level ∧ confidence_level < 9999/10000 then
    some (invCdf (1/2 + confidence_level / 2))
  else none

/-- `check_confidence_reached(values, confidence_level, tolerance_ratio)`:
returns (reached, error margin, margin ratio). -/
def check_confidence_reached (sqrtQ invCdf : ℚ → ℚ) (values : List ℚ)
    (confidence_level tolerance_ratio : ℚ) : Bool × ℚ × ℚ :=
  let n := values.length
  if n < 50 then (false, 10 ^ 10, 1)
  else
    let mean_val := fmean values
    let stdev_val := pstdev sqrtQ values
    if mean_val = 0 then
      (decide (stdev_val = 0), stdev_val, if stdev_val ≠ 0 then 1 else 0)
    else
      match get_z_value invCdf confidence_level with
      | none => (false, 10 ^ 10, 1)
      | some z_score =>
        let standard_error := stdev_val / sqrtQ n
        let margin := z_score * standard_error
        let margin_ratio := if mean_val ≠ 0 then margin / |mean_val| else 1
        (decide (margin ≤ |mean_val| * tolerance_ratio), margin, margin_ratio)

/- ### Decumulation withdrawal solver
(app/services/monte_carlo/retirement.py, `_simulate_retirement_single_run`) -/

/-- Placeholder state for out-of-range list indexing (never reached on the
in-range indices all lemmas quantify over). -/
def dummyTaxState : AccountTaxState :=
  { account := { type := .autre, current_amount := 0 }
    cost_basis := 0
    total_contributions := 0
    opening_age := 0
    current_age := 0 }

/-- Total balance across the per-account states (tax states are kept in
sync with the account balances, as in the source). -/
def totalBalanceOf (states : List AccountTaxState) : ℚ :=
  (states.map (fun s => s.account.current_amount)).sum

/-- The per-account inner loop of one solver iteration (lines 512-560 of
retirement.py): propose `min(estimated_gross * share, balance)` per
account, keep only sane tax results, and accumulate the net total and the
per-account `(index, withdrawal, tax_result)` events. -/
def solverAccountPass (states : List AccountTaxState) (shares : List ℚ)
    (estimated_gross age : ℚ) (tmi : Option ℚ) (is_couple : Bool) :
    ℚ × List (ℕ × ℚ × WithdrawalTaxResult) :=
  (List.range states.length).foldl (fun acc idx =>
    let s := states.getD idx dummyTaxState
    let share := shares.getD idx 0
    if s.account.current_amount ≤ 0 ∨ share ≤ 0 then acc
    else if s.account.current_amount > ABERRANT_LIMIT then acc
    else
      let account_withdrawal := min (estimated_gross * share) s.account.current_amount
      if account_withdrawal > ABERRANT_LIMIT then acc
      else if account_withdrawal > 0 then
        let tax_result := calculate_withdrawal_tax account_withdrawal s age tmi is_couple
        if tax_result.net_withdrawal > 0
            ∧ tax_result.net_withdrawal < account_withdrawal * 2 then
          (acc.1 + tax_result.net_withdrawal, acc.2 ++ [(idx, account_withdrawal, tax_result)])
        else acc
      else acc) (0, [])

/-- The recomputation performed in the `for ... else` branch when the 10
iterations are exhausted (lines 627-653): same proposal with the final
estimate, with slightly reordered aberrance guards as in the source. -/
def solverFinalPass (states : List AccountTaxState) (shares : List ℚ)
    (estimated_gross age : ℚ) (tmi : Option ℚ) (is_couple : Bool) :
    ℚ × List (ℕ × ℚ × WithdrawalTaxResult) :=
  (List.range states.length).foldl (fun acc idx =>
    let s := states.getD idx dummyTaxState
    let share := shares.getD idx 0
    if s.account.current_amount ≤ 0 ∨ s.account.current_amount > ABERRANT_LIMIT
        ∨ share ≤ 0 then acc
    else
      let account_withdrawal := min (estimated_gross * share) s.account.current_amount
      if account_withdrawal > 0 ∧ account_withdrawal ≤ ABERRANT_LIMIT then
        let tax_result := calculate_withdrawal_tax account_withdrawal s age tmi is_couple
        if tax_result.net_withdrawal > 0
            ∧ tax_result.net_withdrawal < account_withdrawal * 2 then
          (acc.1 + tax_result.net_withdrawal, acc.2 ++ [(idx, account_withdrawal, tax_result)])
        else acc
      else acc) (0, [])

/-- Mutable pair threaded through the solver loop. -/
structure SolverState where
  estimated_gross : ℚ
  estimated_tax_rate : ℚ
deriving DecidableEq

/-- Exit status of the solver loop: a `break` with converged values, a
`break` on an aberrance guard (withdrawal aborted, nothing applied), or
exhaustion of the 10 iterations. -/
inductive SolverOutcome
  | converged (gross net : ℚ) (events : List (ℕ × ℚ × WithdrawalTaxResult))
  | aborted
  | exhausted (final : SolverState)

/-- One iteration of the gross-from-net loop (lines 498-623): returns
either an exit (`Sum.inl`) or the state for the next iteration. -/
def solverIterate (states : List AccountTaxState) (shares : List ℚ)
    (total_balance required_net age : ℚ) (tmi : Option ℚ) (is_couple : Bool)
    (st : SolverState) : SolverOutcome ⊕ SolverState :=
  let eg := st.estimated_gross
  if eg ≤ 0 ∨ eg > total_balance * (11/10) then Sum.inl .aborted
  else if eg > ABERRANT_LIMIT then Sum.inl .aborted
  else
    let pass :=
      if eg > 0 ∧ total_balance > 0 then
        solverAccountPass states shares eg age tmi is_couple
      else (0, [])
    let total_net := pass.1
    let error := |total_net - required_net|
    let relative_error := if required_net > 0 then error / required_net else error
    if error < 1/10 ∨ (total_net ≥ required_net ∧ relative_error < 1/100) then
      Sum.inl (.converged eg total_net pass.2)
    else
      let effective_tax_rate :=
        if eg > 0 then
          max 0 (min (1/2)
            (if total_net > 0 then 1 - total_net / eg else st.estimated_tax_rate))
        else st.estimated_tax_rate
      if total_net < 0 ∨ total_net > eg * 2 then Sum.inl .aborted
      else
        let eg' :=
          if total_net < required_net then
            let adjustment :=
              if 0 < effective_tax_rate ∧ effective_tax_rate < 1 then
                (required_net - total_net) / (1 - effective_tax_rate)
              else (required_net - total_net) / (8/10)
            let adjustment :=
              min adjustment (min (total_balance * (2/10)) (eg * (6/10)))
            min (eg + adjustment) (total_balance * (99/100))
          else
            let adjustment :=
              if 0 < effective_tax_rate ∧ effective_tax_rate < 1 then
                (total_net - required_net) / (1 - effective_tax_rate)
              else (total_net - required_net) / (8/10)
            let adjustment :=
              min adjustment (min (eg * (6/10)) (total_balance * (2/10)))
            max 0 (eg - adjustment)
        if eg' ≤ 0 ∨ eg' > total_balance * (101/100) then Sum.inl .aborted
        else Sum.inr { estimated_gross := eg', estimated_tax_rate := effective_tax_rate }

/-- Run the loop for at most `fuel` iterations (the source uses 10). -/
def solverRun (step : SolverState → SolverOutcome ⊕ SolverState) :
    ℕ → SolverState → SolverOutcome
  | 0, st => .exhausted st
  | fuel + 1, st =>
    match step st with
    | Sum.inl outcome => outcome
    | Sum.inr st' => solverRun step fuel st'

/-- Gross withdrawal, net withdrawal and per-account tax events produced by
the solver for one month. -/
structure WithdrawalOutcome where
  gross : ℚ
  net : ℚ
  events : List (ℕ × ℚ × WithdrawalTaxResult)
deriving DecidableEq

/-- The non-trivial branch of the month's withdrawal computation (initial
20% tax estimate, fixed shares, 10 solver iterations, `for-else`
recomputation on exhaustion). -/
def solveGross (states : List AccountTaxState) (required_net total_balance age : ℚ)
    (tmi : Option ℚ) (is_couple : Bool) : WithdrawalOutcome :=
  let estimated_tax_rate : ℚ := 2/10
  let estimated_gross :=
    min (required_net / (1 - estimated_tax_rate)) (total_balance * (99/100))
  let shares :=
    states.map (fun s =>
      if s.account.current_amount > 0 ∧ total_balance > 0 then
        s.account.current_amount / total_balance
      else 0)
  match solverRun
      (solverIterate states shares total_balance required_net age tmi is_couple) 10
      { estimated_gross := estimated_gross, estimated_tax_rate := estimated_tax_rate } with
  | .converged gross net events => ⟨gross, net, events⟩
  | .aborted => ⟨0, 0, []⟩
  | .exhausted final =>
    if final.estimated_gross > 0 ∧ final.estimated_gross ≤ ABERRANT_LIMIT
        ∧ total_balance > 0 then
      let pass := solverFinalPass states shares final.estimated_gross age tmi is_couple
      ⟨final.estimated_gross, pass.1, pass.2⟩
    else ⟨0, 0, []⟩

/-- The month's withdrawal computation (lines 469-677): the early branch
returns zero gross, zero net and no events without ever entering the
solver loop when nothing is required or nothing is left. -/
def computeMonthWithdrawal (states : List AccountTaxState)
    (required_net age : ℚ) (tmi : Option ℚ) (is_couple : Bool) :
    WithdrawalOutcome :=
  let total_balance := totalBalanceOf states
  if required_net ≤ 0 ∨ total_balance ≤ 0 then ⟨0, 0, []⟩
  else solveGross states required_net total_balance age tmi is_couple

/-- Lookup of an index in the `account_withdrawals` dict. -/
def eventFor (events : List (ℕ × ℚ × WithdrawalTaxResult)) (idx : ℕ) :
    Option (ℚ × WithdrawalTaxResult) :=
  (events.find? (fun e => e.1 = idx)).map (fun e => e.2)

/-- Application of the computed withdrawals to the account balances (lines
685-777): skipped entirely unless the gross withdrawal is positive; each
withdrawn account is debited, floored at zero, clamped at `1e12`, and its
cost basis updated. -/
def applyWithdrawalStep (states : List AccountTaxState)
    (outcome : WithdrawalOutcome) (total_balance : ℚ) : List AccountTaxState :=
  if outcome.gross > 0 ∧ total_balance > 0 then
    (List.range states.length).map (fun idx =>
      let s := states.getD idx dummyTaxState
      match eventFor outcome.events idx with
      | none => s
      | some e =>
        let balance1 := max 0 (s.account.current_amount - e.1)
        let balance2 := if balance1 > ABERRANT_LIMIT then ABERRANT_LIMIT else balance1
        let s' := update_cost_basis_after_withdrawal s e.1
        { s' with account := { s'.account with current_amount := balance2 } })
  else states

/- ### Per-account retirement path events (for the cost-basis lifetime) -/

/-- The two things that happen to one account's tax state during a
decumulation path after initialization: a gross withdrawal is applied
(retirement.py lines 737-762), or the monthly growth step multiplies the
balance by `1 + r` with `r` clamped to ±30% and the balance clamped into
`[0, 1e12]` (lines 805-847), the tax state tracking the balance. -/
inductive RetEvent
  | withdraw (amount : ℚ)
  | grow (rate : ℚ)
deriving DecidableEq

/-- Apply one event to an account tax state. -/
def applyRetEvent (s : AccountTaxState) : RetEvent → AccountTaxState
  | .withdraw amount => update_cost_basis_after_withdrawal s amount
  | .grow rate =>
    if s.account.current_amount ≤ 0 then s
    else
      let balance0 :=
        if s.account.current_amount > ABERRANT_LIMIT then ABERRANT_LIMIT
        else s.account.current_amount
      let monthly_return := max (-(3/10)) (min (3/10) rate)
      let new_balance := balance0 * (1 + monthly_return)
      let new_balance :=
        if 0 ≤ new_balance ∧ new_balance < ABERRANT_LIMIT then new_balance
        else min (balance0 * (13/10)) ABERRANT_LIMIT
      { s with account := { s.account with current_amount := new_balance } }

/-- A withdrawal event carries the (always positive, in the source) gross
amount actually debited. -/
def RetEvent.nonnegWithdrawal : RetEvent → Prop
  | .withdraw amount => 0 ≤ amount
  | .grow _ => True

/-- Final tax state after a list of path events. -/
def runRetEvents (s : AccountTaxState) (events : List RetEvent) : AccountTaxState :=
  events.foldl applyRetEvent s

/- ### Optimizer probe (app/services/monte_carlo/optimization.py, `evaluate`) -/

/-- The first index of a p50 series that is ≤ 0 (used both for the code's
scan over `median_series[:-1]` and for the specification's scan over the
whole trajectory). -/
def firstIdxLe (l : List ℚ) : Option ℕ :=
  match l with
  | [] => none
  | x :: xs => if x ≤ 0 then some 0 else (firstIdxLe xs).map (· + 1)

/-- The payload fields of `SavingsOptimizationInput` read by the probe. -/
structure ProbeContext where
  capitalization_only : Bool
  target_monthly_income : ℚ
  state_pension_monthly_income : ℚ
  target_final_capital : ℚ
  tolerance_ratio : ℚ

/-- Result fields of one `evaluate(scale)` probe that the claim is about. -/
structure ProbeOutcome where
  depletion_months : ℕ
  effective_final_capital : ℚ
  error : ℚ
  sufficient : Bool
deriving DecidableEq

/-- The depletion scan of `evaluate` (lines 389-407): walk the median
decumulation p50 trajectory excluding its final point, and on the first
index at or below zero record the months remaining to the horizon and the
early-depletion penalty. -/
def depletionScan (median_series : List ℚ) (penalty_base : ℚ) : ℕ × ℚ :=
  match firstIdxLe median_series.dropLast with
  | none => (0, 0)
  | some idx =>
    let final_index := median_series.length - 1
    let months_remaining_penalty := final_index - idx
    (months_remaining_penalty,
      max 1 penalty_base * max 1 (months_remaining_penalty : ℚ))

/-- The arithmetic core of `evaluate(scale)` (lines 389-429): depletion
penalty, effective final capital, error against the target and the
sufficiency test, with `tolerance_capital = max(100, |target| *
tolerance_ratio)` (line 211).  `median_series` is the p50 percentile
trajectory of the median retirement scenario; it is absent (and the scan
skipped) in capitalization-only mode. -/
def evaluateProbe (ctx : ProbeContext) (median_series : List ℚ)
    (final_capital : ℚ) : ProbeOutcome :=
  let scan :=
    if ctx.capitalization_only then (0, 0)
    else
      depletionScan median_series
        (pyOr (pyOr ctx.target_monthly_income ctx.state_pension_monthly_income) 1000)
  let months_remaining_penalty := scan.1
  let early_penalty := scan.2
  let effective_final_capital := final_capital - early_penalty
  let error := effective_final_capital - ctx.target_final_capital
  let tolerance_capital := max 100 (|ctx.target_final_capital| * ctx.tolerance_ratio)
  { depletion_months := months_remaining_penalty
    effective_final_capital := effective_final_capital
    error := error
    sufficient :=
      decide ((ctx.capitalization_only = true ∨ months_remaining_penalty = 0)
        ∧ error ≥ -tolerance_capital) }

/-- The specification's depletion count: months remaining at the first
index of the whole median trajectory where p50 ≤ 0, and 0 if never. -/
def specDepletionMonths (median_series : List ℚ) : ℕ :=
  match firstIdxLe median_series with
  | none => 0
  | some idx => (median_series.length - 1) - idx

/- ### Auxiliary definitions used by the statements and proofs -/

/-- Placeholder account state for out-of-range list indexing. -/
def dummyAccountState : AccountState :=
  { account := { type := .autre, current_amount := 0 }, balance := 0 }

/-- Months-remaining reading of an optional depletion index against a
series length (proof helper for the depletion scan). -/
def monthsFrom (n : ℕ) : Option ℕ → ℕ
  | none => 0
  | some idx => (n - 1) - idx

/-- The inflation adjustment of the return sampler is disabled: both
inflation parameters are absent or zero. -/
def inflationDisabled : Option MarketAssumptions → Prop
  | none => True
  | some m => orZero m.inflation_mean = 0 ∧ orZero m.inflation_volatility = 0

/- ### Concrete instances used by counterexamples and witnesses -/

/-- A PEA tax state with balance 100, cost basis 50 (C2 counterexample). -/
def c2State : AccountTaxState :=
  { account := { type := .pea, current_amount := 100 }
    cost_basis := 50
    total_contributions := 100
    opening_age := 40
    current_age := 40 }

/-- A CTO tax state with balance 200, cost basis 100 (C2 witness). -/
def c2WitnessState : AccountTaxState :=
  { account := { type := .cto, current_amount := 200 }
    cost_basis := 100
    total_contributions := 200
    opening_age := 40
    current_age := 40 }

/-- Two accounts with only share percentages (60/40) and no explicit
monthly contributions (C1). -/
def c1Accounts : List AccountState :=
  [{ account := { type := .cto, current_amount := 1000, monthly_contribution_share := some 60 }
     balance := 1000 },
   { account := { type := .livret, current_amount := 500, monthly_contribution_share := some 40 }
     balance := 500 }]

/-- A savings phase active from age 30 to 65 paying 500 per month (shows
that even an active phase yields an active total of 0 without explicit
per-account amounts). -/
def c1Phase : SavingsPhase := { from_age := 30, to_age := 65, monthly_contribution := 500 }

/-- Market assumptions of scenario E2: documented default expected returns
and zero volatility everywhere, zero inflation. -/
def e2Market : MarketAssumptions :=
  { inflation_mean := some 0
    inflation_volatility := some 0
    asset_classes := fun key =>
      some { expected_return := DEFAULT_ASSET_RETURNS key, volatility := some 0 }
    correlations := fun _ _ => none }

/-- The E2 livret account: balance 22 000, monthly contribution 1 000. -/
def e2Account : InvestmentAccount :=
  { type := .livret, current_amount := 22000, monthly_contribution := some 1000 }

/-- The E2 payload: adult 30→65, single livret account, zero-vol market. -/
def e2Payload : CapPayload :=
  { adults := [{ current_age := 30, retirement_age := 65 }]
    savings_phases := []
    investment_accounts := [e2Account]
    market_assumptions := some e2Market }

/-- A square-root implementation agreeing with `math.sqrt` on the only
argument the E2 run ever passes (`sqrt 12 ≈ 3.5`; with all volatilities
zero its value never reaches the result). -/
def sqrtQ0 : ℚ → ℚ := fun q => if q = 12 then 7/2 else 0

/-- The E3 PEA tax state: balance 100 000, cost basis 50 000, opened at 58,
aged 60 (C6). -/
def e3State : AccountTaxState :=
  { account := { type := .pea, current_amount := 100000 }
    cost_basis := 50000
    total_contributions := 100000
    opening_age := 58
    current_age := 60 }

/-- Market for the C9 run: zero expected returns, zero volatility except
crypto (24%/yr), no inflation, no user correlations.  The zero equities
variance makes the covariance matrix non-positive-definite, so the sampler
falls back to independent draws. -/
def c9Market : MarketAssumptions :=
  { inflation_mean := none
    inflation_volatility := none
    asset_classes := fun key =>
      match key with
      | .crypto => some { expected_return := 0, volatility := some 24 }
      | _ => some { expected_return := 0, volatility := some 0 }
    correlations := fun _ _ => none }

/-- A single crypto account with balance 1 000 and no contribution (C9). -/
def c9Payload : CapPayload :=
  { adults := [{ current_age := 40, retirement_age := 40 + 1/12 }]
    savings_phases := []
    investment_accounts := [{ type := .crypto, current_amount := 1000 }]
    market_assumptions := some c9Market }

/-- Square root agreeing with `math.sqrt` at 12 for the C9 run's monthly
volatility conversion (`24% / 2.4 = 10%` monthly for crypto). -/
def sqrtQ9 : ℚ → ℚ := fun q => if q = 12 then 12/5 else 0

/-- A concrete shared-generator stream: the draw at global index 8 is 1,
all others 0.  The first run of the C9 payload reads indices 0–4, a second
identical run reads 5–9. -/
def g9 : ℕ → ℚ := fun n => if n = 8 then 1 else 0

/-- A PEA tax state entering a retirement month (C8). -/
def c8State : AccountTaxState :=
  { account := { type := .pea, current_amount := 50000 }
    cost_basis := 35000
    total_contributions := 50000
    opening_age := 50
    current_age := 65 }

/-- A PER account with no declared initial cost basis (C10). -/
def c10Account : InvestmentAccount :=
  { type := .per, current_amount := 1000 }

/- ### Generic helper lemmas -/

theorem getD_zipMap (f : AccountState × ℚ → ℚ) :
    ∀ (acs : List AccountState) (ps : List ℚ) (i : ℕ), i < acs.length → i < ps.length →
      ((acs.zip ps).map f).getD i 0 = f (acs.getD i dummyAccountState, ps.getD i 0)
  | [], _, i, hi, _ => absurd hi (by simp)
  | _ :: _, [], i, _, hp => absurd hp (by simp)
  | a :: acs, p :: ps, 0, _, _ => by simp [List.getD]
  | a :: acs, p :: ps, i + 1, hi, hp => by
    simp only [List.zip_cons_cons, List.map_cons, List.getD_cons_succ]
    exact getD_zipMap f acs ps i (by simpa using hi) (by simpa using hp)

theorem getD_map_zero (l : List AccountState) (i : ℕ) :
    (l.map (fun _ => (0 : ℚ))).getD i 0 = 0 := by
  induction l generalizing i with
  | nil => simp [List.getD]
  | cons a l ih =>
    cases i with
    | zero => simp [List.getD]
    | succ i => simp only [List.map_cons, List.getD_cons_succ]; exact ih i

theorem mem_insertAsc {x a : ℚ} : ∀ {l : List ℚ}, a ∈ insertAsc x l ↔ a = x ∨ a ∈ l := by
  intro l
  induction l with
  | nil => simp [insertAsc]
  | cons y ys ih =>
    by_cases h : x ≤ y
    · simp [insertAsc, h]
    · simp only [insertAsc, if_neg h, List.mem_cons, ih]
      tauto

theorem mem_sortAsc {a : ℚ} : ∀ {l : List ℚ}, a ∈ sortAsc l ↔ a ∈ l := by
  intro l
  induction l with
  | nil => simp [sortAsc]
  | cons y ys ih =>
    simp only [sortAsc, List.foldr_cons] at ih ⊢
    rw [mem_insertAsc, ih, List.mem_cons]

theorem length_insertAsc (x : ℚ) : ∀ (l : List ℚ), (insertAsc x l).length = l.length + 1
  | [] => rfl
  | y :: ys => by
    by_cases h : x ≤ y
    · simp [insertAsc, h]
    · simp [insertAsc, h, length_insertAsc x ys]

theorem length_sortAsc : ∀ (l : List ℚ), (sortAsc l).length = l.length
  | [] => rfl
  | y :: ys => by
    simp [sortAsc, List.foldr_cons, length_insertAsc]
    simpa [sortAsc] using length_sortAsc ys

theorem percentile_mem (l : List ℚ) (p : ℚ) (hl : l ≠ []) :
    compute_percentile_from_sorted l p ∈ l := by
  match l, hl with
  | [x], _ => simp [compute_percentile_from_sorted]
  | x :: y :: t, _ =>
    show (x :: y :: t).getD _ 0 ∈ x :: y :: t
    set l' := x :: y :: t with hl'
    set idx : ℤ := max 0 (min ((l'.length : ℤ) - 1) (pyInt (p * ((l'.length : ℚ) - 1)))) with hidx
    have h0 : 0 ≤ idx := le_max_left _ _
    have h1 : idx ≤ (l'.length : ℤ) - 1 := by
      apply max_le
      · simp only [hl', List.length_cons]
        push_cast
        omega
      · exact min_le_left _ _
    have hlt : idx.toNat < l'.length := by omega
    rw [List.getD_eq_getElem _ _ hlt]
    exact List.getElem_mem hlt

theorem monthsFrom_map_succ (n : ℕ) (o : Option ℕ) :
    monthsFrom (n + 1) (o.map (· + 1)) = monthsFrom n o := by
  cases o with
  | none => rfl
  | some i => simp [monthsFrom]; omega

theorem monthsFrom_dropLast : ∀ (l : List ℚ),
    monthsFrom l.length (firstIdxLe l.dropLast) = monthsFrom l.length (firstIdxLe l)
  | [] => rfl
  | [x] => by
    by_cases h : x ≤ 0 <;> simp [firstIdxLe, h, monthsFrom]
  | x :: y :: t => by
    have hne : (y :: t : List ℚ) ≠ [] := by simp
    rw [List.dropLast_cons_of_ne_nil hne]
    by_cases h : x ≤ 0
    · simp [firstIdxLe, h]
    · simp only [firstIdxLe, if_neg h, List.length_cons]
      rw [monthsFrom_map_succ, monthsFrom_map_succ]
      exact monthsFrom_dropLast (y :: t)

/- ### Evaluation lemmas for the concrete runs -/

set_option maxHeartbeats 2000000 in
theorem e2_sample_livrets :
    (sample_monthly_asset_returns sqrtQ0 (fun _ => 0) (some e2Market) 0).1 AssetKey.livrets
      = 1/800 := by
  have hr : List.range 5 = [0,1,2,3,4] := by decide
  simp only [sample_monthly_asset_returns]
  norm_num [hr, ASSET_KEYS, assetIndex, compute_asset_monthly_mean,
    _asset_expected_return, e2Market, DEFAULT_ASSET_RETURNS, compute_asset_monthly_std,
    sqrtQ0, DEFAULT_VOLATILITIES, orZero, List.getD]
  split <;> norm_num

set_option maxHeartbeats 2000000 in
theorem e2_distribute :
    _distribute_contributions
      [{ account := e2Account, balance := 22000 }] 1000 = [950] := by
  norm_num +decide [_distribute_contributions, e2Account, orZero, finalContributionStep,
    check_deposit_limit, get_deposit_limit]

set_option maxHeartbeats 4000000 in
theorem e2_month1 :
    ((_simulate_single_run sqrtQ0 (fun _ => 0) e2Payload 1 0).accounts.getD 0
        dummyAccountState).balance = 367659/16 := by
  have hr1 : List.range 1 = [0] := by decide
  have hmc : e2Account.monthly_contribution = some 1000 := rfl
  have hty : e2Account.type = InvestmentAccountType.livret := rfl
  have hca : e2Account.current_amount = 22000 := rfl
  simp only [_simulate_single_run, e2Payload, hr1, List.foldl_cons, List.foldl_nil,
    List.map_cons, List.map_nil, capMonthStep, hca]
  norm_num [_active_monthly_contribution, orZero, hmc]
  rw [e2_distribute]
  norm_num [compute_account_return_from_asset_sample,
    compute_account_gross_return_from_sample, hty, adjust_return, List.getD]
  rw [e2_sample_livrets]
  norm_num [_account_gross_monthly_return, hty, _account_tax_rate, _asset_expected_return,
    compute_asset_monthly_mean, e2Market, DEFAULT_ASSET_RETURNS, max_def, min_def]

theorem sample_ctr_advance (sqrtQ : ℚ → ℚ) (g : ℕ → ℚ) (m : Option MarketAssumptions)
    (ctr : ℕ) (h : inflationDisabled m) :
    (sample_monthly_asset_returns sqrtQ g m ctr).2 = ctr + 5 := by
  cases m with
  | none => simp [sample_monthly_asset_returns, ASSET_KEYS, orZero]
  | some mm =>
    obtain ⟨h1, h2⟩ := h
    simp [sample_monthly_asset_returns, ASSET_KEYS, h1, h2]

set_option maxHeartbeats 2000000 in
theorem c9_sample_crypto (ctr : ℕ) :
    (sample_monthly_asset_returns sqrtQ9 g9 (some c9Market) ctr).1 AssetKey.crypto
      = (1/10) * g9 (ctr + 3) := by
  have hr : List.range 5 = [0,1,2,3,4] := by decide
  simp only [sample_monthly_asset_returns]
  norm_num [hr, ASSET_KEYS, assetIndex, compute_asset_monthly_mean,
    _asset_expected_return, c9Market, DEFAULT_ASSET_RETURNS, compute_asset_monthly_std,
    sqrtQ9, DEFAULT_VOLATILITIES, orZero, List.getD, cholesky_decomposition,
    build_covariance_matrix, List.foldlM, Except.bind, Except.map, bind, pure, Except.pure,
    get_correlation_value, DEFAULT_CORRELATIONS]

set_option maxHeartbeats 4000000 in
theorem c9_run (ctr : ℕ) :
    capFinalCapital (_simulate_single_run sqrtQ9 g9 c9Payload 1 ctr)
      = 1000 * (1 + (max (-(3/10)) (min (3/10) ((1/10) * g9 (ctr + 3)))) * (7/10)) ∧
    (_simulate_single_run sqrtQ9 g9 c9Payload 1 ctr).ctr = ctr + 5 := by
  have hr1 : List.range 1 = [0] := by decide
  have hinf : inflationDisabled (some c9Market) := by
    constructor <;> simp [c9Market, orZero]
  constructor
  · simp only [_simulate_single_run, c9Payload, hr1, List.foldl_cons, List.foldl_nil,
      List.map_cons, List.map_nil, capMonthStep, capFinalCapital]
    norm_num [_active_monthly_contribution, orZero, _distribute_contributions]
    norm_num [compute_account_return_from_asset_sample,
      compute_account_gross_return_from_sample, adjust_return, List.getD]
    rw [c9_sample_crypto]
    norm_num [_account_gross_monthly_return, _account_tax_rate, _asset_expected_return,
      compute_asset_monthly_mean, c9Market, DEFAULT_ASSET_RETURNS]
  · simp only [_simulate_single_run, c9Payload, hr1, List.foldl_cons, List.foldl_nil,
      List.map_cons, List.map_nil, capMonthStep]
    rw [sample_ctr_advance _ _ _ _ hinf]

/- ### Structural lemmas about the contribution distribution, tax-state lifetime,
and the depletion scan -/


theorem finalStep_livret_bound (s : AccountState) (p : ℚ)
    (hty : s.account.type = .livret) (hb : s.balance ≤ 22950) :
    s.balance + finalContributionStep s p ≤ 22950 := by
  unfold finalContributionStep check_deposit_limit get_deposit_limit
  rw [hty]
  by_cases h1 : orZero s.account.monthly_contribution = 0
  · simp only [if_pos h1]; linarith
  · simp only [if_neg h1]
    by_cases h2 : p ≤ 0
    · simp only [if_pos h2]; linarith
    · simp only [if_neg h2]
      by_cases h3 : s.balance + p ≤ 22950
      · rw [if_pos h3]
        simp only [min_self]
        norm_num
        linarith
      · simp only [if_neg h3]
        by_cases h4 : (0:ℚ) < 0 ⊔ (22950 - s.balance)
        · have hd : decide ((0:ℚ) ⊔ (22950 - s.balance) > 0) = true := by
            simpa using h4
          simp only [hd]
          have hmax : (0:ℚ) ⊔ (22950 - s.balance) = 22950 - s.balance :=
            max_eq_right (by linarith)
          have hle : p ⊓ ((0:ℚ) ⊔ (22950 - s.balance)) ≤ 22950 - s.balance := by
            rw [hmax]; exact min_le_right _ _
          norm_num
          linarith
        · have hd : decide ((0:ℚ) ⊔ (22950 - s.balance) > 0) = false := by
            simpa using h4
          simp only [hd]
          norm_num
          linarith

theorem finalStep_zero (s : AccountState) (p : ℚ)
    (h : orZero s.account.monthly_contribution = 0) :
    finalContributionStep s p = 0 := by
  unfold finalContributionStep
  simp [h]

theorem getD_zipMap_finalStep_zero (accounts : List AccountState) (ps : List ℚ) (i : ℕ)
    (h : orZero ((accounts.getD i dummyAccountState).account.monthly_contribution) = 0) :
    (((accounts.zip ps).map (fun p => finalContributionStep p.1 p.2)).getD i 0) = 0 := by
  rcases Nat.lt_or_ge i accounts.length with hi | hi
  · rcases Nat.lt_or_ge i ps.length with hp | hp
    · rw [getD_zipMap _ accounts ps i hi hp]
      exact finalStep_zero _ _ h
    · have hlen : ((accounts.zip ps).map (fun p => finalContributionStep p.1 p.2)).length ≤ i := by
        simp only [List.length_map, List.length_zip]; omega
      exact List.getD_eq_default _ _ hlen
  · have hlen : ((accounts.zip ps).map (fun p => finalContributionStep p.1 p.2)).length ≤ i := by
      simp only [List.length_map, List.length_zip]; omega
    exact List.getD_eq_default _ _ hlen

theorem getD_zipMap_finalStep_livret (accounts : List AccountState) (ps : List ℚ) (i : ℕ)
    (hty : (accounts.getD i dummyAccountState).account.type = .livret)
    (hb : (accounts.getD i dummyAccountState).balance ≤ 22950) :
    (accounts.getD i dummyAccountState).balance
      + (((accounts.zip ps).map (fun p => finalContributionStep p.1 p.2)).getD i 0)
      ≤ 22950 := by
  rcases Nat.lt_or_ge i accounts.length with hi | hi
  · rcases Nat.lt_or_ge i ps.length with hp | hp
    · rw [getD_zipMap _ accounts ps i hi hp]
      exact finalStep_livret_bound _ _ hty hb
    · have hlen : ((accounts.zip ps).map (fun p => finalContributionStep p.1 p.2)).length ≤ i := by
        simp only [List.length_map, List.length_zip]; omega
      rw [List.getD_eq_default _ _ hlen]
      linarith
  · have hlen : ((accounts.zip ps).map (fun p => finalContributionStep p.1 p.2)).length ≤ i := by
      simp only [List.length_map, List.length_zip]; omega
    rw [List.getD_eq_default _ _ hlen]
    linarith

theorem retEvents_zero_absorb : ∀ (events : List RetEvent) (s : AccountTaxState),
    (∀ e ∈ events, e.nonnegWithdrawal) → s.account.current_amount = 0 →
    (runRetEvents s events).account.current_amount = 0
  | [], _, _, h0 => h0
  | e :: events, s, hall, h0 => by
    have he := hall e (by simp)
    have hrest : ∀ e' ∈ events, e'.nonnegWithdrawal := fun e' h => hall e' (by simp [h])
    have hstep : (applyRetEvent s e).account.current_amount = 0 := by
      cases e with
      | withdraw amount =>
        simp only [RetEvent.nonnegWithdrawal] at he
        simp only [applyRetEvent, update_cost_basis_after_withdrawal, h0]
        have : (0:ℚ) - amount ≤ 0 := by linarith
        simpa using max_eq_left this
      | grow rate =>
        simp only [applyRetEvent, h0]
        norm_num
        exact h0
    exact retEvents_zero_absorb events (applyRetEvent s e) hrest hstep

theorem retEvents_cost_basis : ∀ (events : List RetEvent) (s : AccountTaxState),
    (∀ e ∈ events, e.nonnegWithdrawal) →
    0 < (runRetEvents s events).account.current_amount →
    (runRetEvents s events).cost_basis = s.cost_basis
  | [], _, _, _ => rfl
  | e :: events, s, hall, hpos => by
    have hrest : ∀ e' ∈ events, e'.nonnegWithdrawal := fun e' h => hall e' (by simp [h])
    have hpos' : 0 < (runRetEvents (applyRetEvent s e) events).account.current_amount := hpos
    have ih := retEvents_cost_basis events (applyRetEvent s e) hrest hpos'
    rw [show runRetEvents s (e :: events) = runRetEvents (applyRetEvent s e) events from rfl,
      ih]
    cases e with
    | grow rate =>
      simp only [applyRetEvent]
      split <;> rfl
    | withdraw amount =>
      by_cases hz : (0 : ℚ) ⊔ (s.account.current_amount - amount) = 0
      · exfalso
        have habs : (applyRetEvent s (.withdraw amount)).account.current_amount = 0 := by
          simp [applyRetEvent, update_cost_basis_after_withdrawal, hz]
        have hzero := retEvents_zero_absorb events _ hrest habs
        rw [hzero] at hpos'
        exact absurd hpos' (by norm_num)
      · simp only [applyRetEvent, update_cost_basis_after_withdrawal]
        rw [if_neg hz]

theorem firstIdxLe_lt : ∀ (l : List ℚ) (i : ℕ), firstIdxLe l = some i → i < l.length
  | [], _, h => by simp [firstIdxLe] at h
  | x :: xs, i, h => by
    by_cases hx : x ≤ 0
    · simp only [firstIdxLe, if_pos hx, Option.some.injEq] at h
      simp only [List.length_cons]
      omega
    · simp only [firstIdxLe, if_neg hx] at h
      cases hrec : firstIdxLe xs with
      | none => rw [hrec] at h; simp at h
      | some j =>
        rw [hrec] at h
        simp only [Option.map_some', Option.some.injEq] at h
        have := firstIdxLe_lt xs j hrec
        simp only [List.length_cons, ← h]
        omega

theorem depletionScan_fst (l : List ℚ) (pb : ℚ) :
    (depletionScan l pb).1 = specDepletionMonths l := by
  unfold depletionScan specDepletionMonths
  have hbr := monthsFrom_dropLast l
  unfold monthsFrom at hbr
  cases h1 : firstIdxLe l.dropLast <;> cases h2 : firstIdxLe l <;>
    rw [h1, h2] at hbr <;> simpa using hbr

theorem depletionScan_snd (l : List ℚ) (pb : ℚ) :
    (depletionScan l pb).2 =
      if 0 < (depletionScan l pb).1 then
        max 1 pb * max 1 (((depletionScan l pb).1 : ℚ))
      else 0 := by
  unfold depletionScan
  cases h : firstIdxLe l.dropLast with
  | none => simp
  | some idx =>
    have hlt := firstIdxLe_lt _ _ h
    have hlen : l.dropLast.length = l.length - 1 := List.length_dropLast l
    rw [hlen] at hlt
    have hpos : 0 < l.length - 1 - idx := by omega
    simp [hpos]

/- ### Claim theorems -/


/-- C1 counterexample: with two accounts carrying only share percentages
(60/40) and no explicit monthly contributions, a positive total of 100 is
distributed as [0, 0] — the final per-account pass zeroes every account
whose explicit contribution is 0 — and the active monthly total is 0 even
under an active savings phase, so the share split never pays out. -/
theorem c1_counterexample :
    _distribute_contributions c1Accounts 100 = [0, 0] ∧
    _active_monthly_contribution [c1Phase] (c1Accounts.map (fun s => s.account)) 40 = 0 := by
  constructor
  · norm_num +decide [_distribute_contributions, c1Accounts, orZero, finalContributionStep]
  · norm_num [_active_monthly_contribution, c1Accounts, c1Phase, orZero]

/-- C1 (amended): in the contribution distribution, an account whose
explicit `monthly_contribution` is absent or zero always receives a zero
contribution, for every account list and every total — the share and
equal-split proposals are erased by the final per-account pass, and in the
accumulation path the active total is the explicit sum anyway. -/
theorem c1_amended (accounts : List AccountState) (total : ℚ) (i : ℕ)
    (h : orZero ((accounts.getD i dummyAccountState).account.monthly_contribution) = 0) :
    (_distribute_contributions accounts total).getD i 0 = 0 := by
  unfold _distribute_contributions
  by_cases hacc : accounts = []
  · rw [if_pos hacc]; simp [List.getD]
  · rw [if_neg hacc]
    by_cases htot : total ≤ 0
    · rw [if_pos htot]
      exact getD_map_zero accounts i
    · rw [if_neg htot]
      exact getD_zipMap_finalStep_zero accounts _ i h

/-- C1 witness: the amended statement instantiated on the share-only
account pair with total 250. -/
theorem c1_witness :
    orZero ((c1Accounts.getD 0 dummyAccountState).account.monthly_contribution) = 0 ∧
    (_distribute_contributions c1Accounts 250).getD 0 0 = 0 :=
  ⟨rfl, c1_amended c1Accounts 250 0 rfl⟩

/-- C2 counterexample: for balance 100, cost basis 50, contribution =
withdrawal = 100, the round trip leaves cost basis 25.5, not 50 — off by
24.5, far beyond any floating-point ε. -/
theorem c2_counterexample :
    c2State.cost_basis = 50 ∧
    (update_cost_basis_after_withdrawal
      (update_cost_basis_after_contribution c2State 100) 100).cost_basis = 51/2 ∧
    (1 : ℚ) < 50 - 51/2 := by
  refine ⟨rfl, ?_, by norm_num⟩
  norm_num [update_cost_basis_after_withdrawal, update_cost_basis_after_contribution, c2State]

/-- C2 (amended): applying the cost-basis update on a contribution of
c > 0 and then on a withdrawal of the same c restores the balance b, and
leaves cost basis (cb·b + c)/(b + c) — which differs from cb in general. -/
theorem c2_amended (s : AccountTaxState) (c : ℚ)
    (hb : 0 < s.account.current_amount) (hc : 0 < c) :
    (update_cost_basis_after_withdrawal
        (update_cost_basis_after_contribution s c) c).account.current_amount
      = s.account.current_amount ∧
    (update_cost_basis_after_withdrawal
        (update_cost_basis_after_contribution s c) c).cost_basis
      = (s.cost_basis * s.account.current_amount + c)
          / (s.account.current_amount + c) := by
  have hbc : (0:ℚ) < s.account.current_amount + c := by linarith
  have hsub : s.account.current_amount + c - c = s.account.current_amount := by ring
  have hmax : max 0 (s.account.current_amount + c - c) = s.account.current_amount := by
    rw [hsub]; exact max_eq_right (le_of_lt hb)
  constructor
  · simp only [update_cost_basis_after_withdrawal, update_cost_basis_after_contribution]
    simpa using hmax
  · simp only [update_cost_basis_after_withdrawal, update_cost_basis_after_contribution]
    rw [if_pos hbc]
    have hne : ¬ max 0 (s.account.current_amount + c - c) = 0 := by
      rw [hmax]; linarith
    rw [if_neg hne]

/-- C2 witness: the amended statement instantiated at balance 200, cost
basis 100, amount 50. -/
theorem c2_witness :
    0 < c2WitnessState.account.current_amount ∧ (0:ℚ) < 50 ∧
    (update_cost_basis_after_withdrawal
        (update_cost_basis_after_contribution c2WitnessState 50) 50).account.current_amount
      = c2WitnessState.account.current_amount ∧
    (update_cost_basis_after_withdrawal
        (update_cost_basis_after_contribution c2WitnessState 50) 50).cost_basis
      = (c2WitnessState.cost_basis * c2WitnessState.account.current_amount + 50)
          / (c2WitnessState.account.current_amount + 50) :=
  ⟨by norm_num [c2WitnessState], by norm_num,
   (c2_amended c2WitnessState 50 (by norm_num [c2WitnessState]) (by norm_num)).1,
   (c2_amended c2WitnessState 50 (by norm_num [c2WitnessState]) (by norm_num)).2⟩

/-- C3 counterexample: in the E2 scenario (livret, balance 22 000,
contribution 1 000, zero volatility), the deposit is clipped to 950 but
the growth step of month 1 lifts the balance to 22 978.6875 > 22 950. -/
theorem c3_counterexample :
    e2Account.type = .livret ∧
    ((_simulate_single_run sqrtQ0 (fun _ => 0) e2Payload 1 0).accounts.getD 0
        dummyAccountState).balance = 367659/16 ∧
    (22950:ℚ) < 367659/16 :=
  ⟨rfl, e2_month1, by norm_num⟩

/-- C3 (amended): the deposit-limit check clips livret deposits so that
a livret balance at or below the 22 950 ceiling never exceeds the ceiling
immediately after the contribution step; growth is applied afterwards and
is not clipped. -/
theorem c3_amended (accounts : List AccountState) (total : ℚ) (i : ℕ)
    (hty : (accounts.getD i dummyAccountState).account.type = .livret)
    (hb : (accounts.getD i dummyAccountState).balance ≤ 22950) :
    (accounts.getD i dummyAccountState).balance
      + (_distribute_contributions accounts total).getD i 0 ≤ 22950 := by
  unfold _distribute_contributions
  by_cases hacc : accounts = []
  · rw [if_pos hacc]
    have h0 : ([] : List ℚ).getD i 0 = 0 := by simp [List.getD]
    rw [h0]
    linarith
  · rw [if_neg hacc]
    by_cases htot : total ≤ 0
    · rw [if_pos htot, getD_map_zero accounts i]
      linarith
    · rw [if_neg htot]
      exact getD_zipMap_finalStep_livret accounts _ i hty hb

/-- C3 witness: the amended bound instantiated on the E2 livret account
(22 000 + clipped 950 ≤ 22 950). -/
theorem c3_witness :
    ([({ account := e2Account, balance := 22000 } : AccountState)].getD 0
        dummyAccountState).account.type = .livret ∧
    ([({ account := e2Account, balance := 22000 } : AccountState)].getD 0
        dummyAccountState).balance ≤ 22950 ∧
    ([({ account := e2Account, balance := 22000 } : AccountState)].getD 0
        dummyAccountState).balance
      + (_distribute_contributions [{ account := e2Account, balance := 22000 }] 1000).getD 0 0
      ≤ 22950 :=
  ⟨rfl, by norm_num [List.getD],
   c3_amended [{ account := e2Account, balance := 22000 }] 1000 0 rfl
     (by norm_num [List.getD])⟩

/-- C6: for a PEA with balance 100 000, cost basis 50 000, opened at 58
and withdrawn at 60 (account age < 5 years), a gross withdrawal of 10 000
realizes gain 5 000, income tax 640, social contributions 860 and net
8 500 (effective rate 15%). -/
theorem c6_pea_tax :
    calculate_withdrawal_tax 10000 e3State 60 none false =
      { gross_withdrawal := 10000, capital_gain := 5000, income_tax := 640,
        social_contributions := 860, net_withdrawal := 8500, effective_tax_rate := 3/20 } := by
  norm_num [calculate_withdrawal_tax, calculate_capital_gain, calculate_pea_tax, e3State,
    FLAT_TAX_RATE, SOCIAL_CONTRIBUTIONS_RATE]

/-- C4 counterexample: the accumulation driver's aggregation computes
p50 of [10, 2e12, 3e12] as 2·10¹² — a value at or above the 10¹² aberrance
bound survives into the percentiles — while the retirement driver's
aggregation filters it and returns 10. -/
theorem c4_counterexample :
    capMCPercentile [10, 2 * 10 ^ 12, 3 * 10 ^ 12] (1/2) = 2 * 10 ^ 12 ∧
    ¬(2 * 10 ^ 12 : ℚ) < ABERRANT_LIMIT ∧
    retMCPercentile [10, 2 * 10 ^ 12, 3 * 10 ^ 12] (1/2) = 10 := by
  refine ⟨?_, by norm_num [ABERRANT_LIMIT], ?_⟩
  · norm_num [capMCPercentile, sortAsc, insertAsc, compute_percentile_from_sorted,
      pyInt, List.getD]
  · norm_num [retMCPercentile, ABERRANT_LIMIT, sortAsc, insertAsc,
      compute_percentile_from_sorted, pyInt, List.getD]

/-- C4 (amended): only the retirement driver filters final capitals to
[0, 10¹²) before percentile computation (so its percentiles always lie in
that interval), while the accumulation driver computes percentiles
directly on the sorted raw list, so each of its percentiles is an element
of the raw final-capital list. -/
theorem c4_amended (results : List ℚ) (p : ℚ) :
    (0 ≤ retMCPercentile results p ∧ retMCPercentile results p < ABERRANT_LIMIT) ∧
    (results ≠ [] → capMCPercentile results p ∈ results) := by
  constructor
  · simp only [retMCPercentile]
    by_cases hf : results.filter (fun r => decide (0 ≤ r ∧ r < ABERRANT_LIMIT)) = []
    · rw [if_pos hf]
      norm_num [compute_percentile_from_sorted, ABERRANT_LIMIT]
    · rw [if_neg hf]
      have hne : sortAsc (results.filter (fun r => decide (0 ≤ r ∧ r < ABERRANT_LIMIT))) ≠ [] := by
        intro hcon
        apply hf
        have := length_sortAsc (results.filter (fun r => decide (0 ≤ r ∧ r < ABERRANT_LIMIT)))
        rw [hcon] at this
        exact List.length_eq_zero.mp this.symm
      have hmem := percentile_mem _ p hne
      rw [mem_sortAsc] at hmem
      have := List.of_mem_filter hmem
      simpa using this
  · intro hres
    have hne : sortAsc results ≠ [] := by
      intro hcon
      apply hres
      have := length_sortAsc results
      rw [hcon] at this
      exact List.length_eq_zero.mp this.symm
    have hmem := percentile_mem _ p hne
    rw [mem_sortAsc] at hmem
    exact hmem

/-- C4 witness: the amended statement instantiated on [3, -1]. -/
theorem c4_witness :
    (0 ≤ retMCPercentile [3, -1] (1/4) ∧ retMCPercentile [3, -1] (1/4) < ABERRANT_LIMIT) ∧
    (([3, -1] : List ℚ) ≠ [] → capMCPercentile [3, -1] (1/4) ∈ ([3, -1] : List ℚ)) :=
  c4_amended [3, -1] (1/4)

/-- C5: for any square-root and inverse-CDF implementations and any
confidence level in the guard range (0.5, 0.9999), the confidence test
succeeds exactly when n ≥ 50 and either μ ≠ 0 and z·(σ/√n) ≤ |μ|·tol with
z = invCdf(0.5 + level/2) and σ the population standard deviation, or
μ = 0 and σ = 0; and for n < 50 it never succeeds. -/
theorem c5_confidence (sqrtQ invCdf : ℚ → ℚ) (values : List ℚ)
    (confidence_level tolerance_ratio : ℚ)
    (h1 : 1/2 < confidence_level) (h2 : confidence_level < 9999/10000) :
    ((check_confidence_reached sqrtQ invCdf values confidence_level tolerance_ratio).1 = true ↔
      (50 ≤ values.length ∧
        ((fmean values ≠ 0 ∧
            invCdf (1/2 + confidence_level/2)
                * (pstdev sqrtQ values / sqrtQ values.length)
              ≤ |fmean values| * tolerance_ratio) ∨
         (fmean values = 0 ∧ pstdev sqrtQ values = 0)))) ∧
    (values.length < 50 →
      (check_confidence_reached sqrtQ invCdf values confidence_level tolerance_ratio).1
        = false) := by
  simp only [check_confidence_reached, get_z_value]
  by_cases hn : values.length < 50
  · constructor
    · rw [if_pos hn]
      simp only [Bool.false_eq_true, false_iff]
      intro hcon
      omega
    · intro _
      rw [if_pos hn]
  · rw [if_neg hn]
    refine ⟨?_, fun hlt => absurd hlt hn⟩
    by_cases hm : fmean values = 0
    · rw [if_pos hm]
      simp only [decide_eq_true_eq]
      constructor
      · intro hs
        exact ⟨by omega, Or.inr ⟨hm, hs⟩⟩
      · rintro ⟨_, h | h⟩
        · exact absurd hm h.1
        · exact h.2
    · rw [if_neg hm, if_pos ⟨h1, h2⟩]
      simp only [decide_eq_true_eq]
      constructor
      · intro hs
        exact ⟨by omega, Or.inl ⟨hm, hs⟩⟩
      · rintro ⟨_, h | h⟩
        · exact h.2
        · exact absurd h.1 hm

/-- C5 witness: the equivalence instantiated at 50 copies of 2,
confidence level 0.9, tolerance 0.05. -/
theorem c5_witness :
    (1:ℚ)/2 < 9/10 ∧ (9:ℚ)/10 < 9999/10000 ∧
    ((check_confidence_reached (fun q => if q = 50 then 7 else 0) (fun _ => 2)
        (List.replicate 50 2) (9/10) (1/20)).1 = true ↔
      (50 ≤ (List.replicate (50:ℕ) (2:ℚ)).length ∧
        ((fmean (List.replicate 50 2) ≠ 0 ∧
            (fun _ : ℚ => (2:ℚ)) (1/2 + (9/10)/2)
                * (pstdev (fun q => if q = 50 then 7 else 0) (List.replicate 50 2)
                    / (fun q : ℚ => if q = 50 then (7:ℚ) else 0) (List.replicate (50:ℕ) (2:ℚ)).length)
              ≤ |fmean (List.replicate 50 2)| * (1/20)) ∨
         (fmean (List.replicate 50 2) = 0 ∧
            pstdev (fun q => if q = 50 then 7 else 0) (List.replicate 50 2) = 0)))) :=
  ⟨by norm_num, by norm_num,
   (c5_confidence (fun q => if q = 50 then 7 else 0) (fun _ => 2) (List.replicate 50 2)
      (9/10) (1/20) (by norm_num) (by norm_num)).1⟩

/-- C7: for every optimizer probe, depletion_months is the months
remaining at the first index of the median decumulation p50 trajectory at
or below zero (0 if never, and 0 in capitalization-only mode); the
early-depletion penalty max(1, income or pension or 1000) · max(1, months)
is subtracted from the final capital exactly when depletion_months > 0;
and the probe is sufficient iff (depletion_months = 0 or
capitalization-only) and effective capital − target ≥ −max(100, |target| ·
tolerance_ratio). -/
theorem c7_probe (ctx : ProbeContext) (median_series : List ℚ) (final_capital : ℚ) :
    (evaluateProbe ctx median_series final_capital).depletion_months
        = (if ctx.capitalization_only then 0 else specDepletionMonths median_series) ∧
    (evaluateProbe ctx median_series final_capital).effective_final_capital
        = final_capital -
          (if 0 < (evaluateProbe ctx median_series final_capital).depletion_months then
            max 1 (pyOr (pyOr ctx.target_monthly_income ctx.state_pension_monthly_income) 1000)
              * max 1 (((evaluateProbe ctx median_series final_capital).depletion_months : ℚ))
          else 0) ∧
    ((evaluateProbe ctx median_series final_capital).sufficient = true ↔
      (((evaluateProbe ctx median_series final_capital).depletion_months = 0
          ∨ ctx.capitalization_only = true) ∧
        (evaluateProbe ctx median_series final_capital).effective_final_capital
              - ctx.target_final_capital
          ≥ -(max 100 (|ctx.target_final_capital| * ctx.tolerance_ratio)))) := by
  by_cases hco : ctx.capitalization_only = true
  · simp only [evaluateProbe, hco, if_pos, if_true]
    refine ⟨trivial, by norm_num, ?_⟩
    simp only [decide_eq_true_eq]
  · have hco' : ctx.capitalization_only = false := by
      cases h : ctx.capitalization_only
      · rfl
      · exact absurd h hco
    simp only [evaluateProbe, hco', Bool.false_eq_true, if_false]
    refine ⟨depletionScan_fst _ _, ?_, ?_⟩
    · rw [depletionScan_snd median_series
        (pyOr (pyOr ctx.target_monthly_income ctx.state_pension_monthly_income) 1000)]
    · simp only [decide_eq_true_eq]
      constructor
      · rintro ⟨hd, herr⟩
        rcases hd with hd | hd
        · exact absurd hd (by simp [hco'])
        · exact ⟨Or.inl hd, herr⟩
      · rintro ⟨hd, herr⟩
        rcases hd with hd | hd
        · exact ⟨Or.inr hd, herr⟩
        · exact absurd hd (by simp [hco'])

/-- C8: whenever the required net withdrawal or the total balance is at
most 0, the month's withdrawal computation returns gross 0, net 0 and no
per-account tax events without entering the solver loop, and the
withdrawal-application step leaves every account state unchanged. -/
theorem c8_zero_withdrawal (states : List AccountTaxState) (required_net age : ℚ)
    (tmi : Option ℚ) (is_couple : Bool)
    (h : required_net ≤ 0 ∨ totalBalanceOf states ≤ 0) :
    computeMonthWithdrawal states required_net age tmi is_couple
        = { gross := 0, net := 0, events := [] } ∧
    applyWithdrawalStep states
        (computeMonthWithdrawal states required_net age tmi is_couple)
        (totalBalanceOf states) = states := by
  have hc : computeMonthWithdrawal states required_net age tmi is_couple
      = { gross := 0, net := 0, events := [] } := by
    simp only [computeMonthWithdrawal]
    rw [if_pos h]
  refine ⟨hc, ?_⟩
  rw [hc]
  simp only [applyWithdrawalStep]
  rw [if_neg]
  rintro ⟨hg, -⟩
  exact absurd hg (by norm_num)

/-- C8 witness: the zero branch instantiated on one funded PEA account
with required net 0. -/
theorem c8_witness :
    ((0:ℚ) ≤ 0 ∨ totalBalanceOf [c8State] ≤ 0) ∧
    computeMonthWithdrawal [c8State] 0 65 none false
        = { gross := 0, net := 0, events := [] } ∧
    applyWithdrawalStep [c8State] (computeMonthWithdrawal [c8State] 0 65 none false)
        (totalBalanceOf [c8State]) = [c8State] :=
  ⟨Or.inl le_rfl,
   (c8_zero_withdrawal [c8State] 0 65 none false (Or.inl le_rfl)).1,
   (c8_zero_withdrawal [c8State] 0 65 none false (Or.inl le_rfl)).2⟩

/-- C9 counterexample: the single-run simulator takes no seed — draws
come from the shared global generator stream at the current cursor.  Two
consecutive runs with identical inputs (the second starting at the cursor
the first left behind, as in one process) return 1000 and then 1070. -/
theorem c9_counterexample :
    capFinalCapital (_simulate_single_run sqrtQ9 g9 c9Payload 1 0) = 1000 ∧
    (_simulate_single_run sqrtQ9 g9 c9Payload 1 0).ctr = 5 ∧
    capFinalCapital (_simulate_single_run sqrtQ9 g9 c9Payload 1
        (_simulate_single_run sqrtQ9 g9 c9Payload 1 0).ctr) = 1070 ∧
    capFinalCapital (_simulate_single_run sqrtQ9 g9 c9Payload 1 0)
      ≠ capFinalCapital (_simulate_single_run sqrtQ9 g9 c9Payload 1
          (_simulate_single_run sqrtQ9 g9 c9Payload 1 0).ctr) := by
  have h0 := c9_run 0
  have hctr : (_simulate_single_run sqrtQ9 g9 c9Payload 1 0).ctr = 5 := by
    rw [h0.2]
  have h5 := c9_run 5
  have hv0 : capFinalCapital (_simulate_single_run sqrtQ9 g9 c9Payload 1 0) = 1000 := by
    rw [h0.1]
    norm_num [g9, max_def, min_def]
  have hv5 : capFinalCapital (_simulate_single_run sqrtQ9 g9 c9Payload 1 5) = 1070 := by
    rw [h5.1]
    norm_num [g9, max_def, min_def]
  refine ⟨hv0, hctr, ?_, ?_⟩
  · rw [hctr, hv5]
  · rw [hctr, hv0, hv5]
    norm_num

/-- One accumulation month consumes exactly five draws from the shared
generator when the inflation adjustment is disabled. -/
theorem capMonthStep_ctr (sqrtQ : ℚ → ℚ) (g : ℕ → ℚ) (payload : CapPayload)
    (month_index : ℕ) (st : CapRunState)
    (h : inflationDisabled payload.market_assumptions) :
    (capMonthStep sqrtQ g payload month_index st).ctr = st.ctr + 5 := by
  unfold capMonthStep
  exact sample_ctr_advance _ _ _ _ h

/-- C9 (amended): the simulators accept no seed; each path reads the
shared global generator sequentially, consuming exactly 5 draws per month
(with inflation disabled), so a run started at cursor c ends at cursor
c + 5·months and a second identical-input run resumes where the first
stopped instead of reproducing it. -/
theorem c9_amended (sqrtQ : ℚ → ℚ) (g : ℕ → ℚ) (payload : CapPayload)
    (total_months ctr : ℕ) (h : inflationDisabled payload.market_assumptions) :
    (_simulate_single_run sqrtQ g payload total_months ctr).ctr
      = ctr + 5 * total_months := by
  induction total_months with
  | zero => simp [_simulate_single_run]
  | succ m ih =>
    unfold _simulate_single_run at ih ⊢
    rw [List.range_succ, List.foldl_append, List.foldl_cons, List.foldl_nil,
      capMonthStep_ctr _ _ _ _ _ h, ih]
    ring

/-- C9 witness: the cursor-advancement statement instantiated on the
one-month crypto run. -/
theorem c9_witness :
    inflationDisabled c9Payload.market_assumptions ∧
    (_simulate_single_run sqrtQ9 g9 c9Payload 1 0).ctr = 0 + 5 * 1 :=
  ⟨by constructor <;> simp [c9Payload, c9Market, orZero],
   c9_amended sqrtQ9 g9 c9Payload 1 0
     (by constructor <;> simp [c9Payload, c9Market, orZero])⟩

/-- C10: an account with unset or non-positive initial_cost_basis and a
positive starting balance is initialized with cost basis 70% of the
balance and total_contributions equal to the balance, and that estimated
cost basis is preserved through every subsequent withdrawal and growth
event of the path as long as the balance stays positive — so every
withdrawal-tax computation on the path uses it. -/
theorem c10_cost_basis (account : InvestmentAccount) (current_age : ℚ)
    (events : List RetEvent)
    (hcb : ∀ v, account.initial_cost_basis = some v → v ≤ 0)
    (hpos : 0 < account.current_amount)
    (hev : ∀ e ∈ events, e.nonnegWithdrawal) :
    (initialize_account_tax_state account current_age).cost_basis
        = account.current_amount * (7/10) ∧
    (initialize_account_tax_state account current_age).total_contributions
        = account.current_amount ∧
    (0 < (runRetEvents (initialize_account_tax_state account current_age)
            events).account.current_amount →
      (runRetEvents (initialize_account_tax_state account current_age)
          events).cost_basis = account.current_amount * (7/10)) := by
  have hinit : (initialize_account_tax_state account current_age).cost_basis
      = account.current_amount * (7/10) := by
    unfold initialize_account_tax_state
    cases hic : account.initial_cost_basis with
    | none => simp [hpos]
    | some v =>
      have hv := hcb v hic
      simp only []
      rw [if_neg (by linarith), if_pos hpos]
  refine ⟨hinit, rfl, fun hfin => ?_⟩
  rw [retEvents_cost_basis events _ hev hfin, hinit]

/-- C10 witness: the initialization and preservation statement
instantiated on a PER account with balance 1 000, one withdrawal of 100
and one growth month of 10%. -/
theorem c10_witness :
    (∀ v, c10Account.initial_cost_basis = some v → v ≤ 0) ∧
    (0:ℚ) < c10Account.current_amount ∧
    (∀ e ∈ ([.withdraw 100, .grow (1/10)] : List RetEvent), e.nonnegWithdrawal) ∧
    (initialize_account_tax_state c10Account 65).cost_basis
        = c10Account.current_amount * (7/10) ∧
    (initialize_account_tax_state c10Account 65).total_contributions
        = c10Account.current_amount ∧
    (0 < (runRetEvents (initialize_account_tax_state c10Account 65)
            [.withdraw 100, .grow (1/10)]).account.current_amount →
      (runRetEvents (initialize_account_tax_state c10Account 65)
          [.withdraw 100, .grow (1/10)]).cost_basis
        = c10Account.current_amount * (7/10)) := by
  have h1 : ∀ v, c10Account.initial_cost_basis = some v → v ≤ 0 := by
    intro v hv
    simp [c10Account] at hv
  have h2 : (0:ℚ) < c10Account.current_amount := by norm_num [c10Account]
  have h3 : ∀ e ∈ ([.withdraw 100, .grow (1/10)] : List RetEvent), e.nonnegWithdrawal := by
    intro e he
    simp only [List.mem_cons, List.mem_singleton, List.not_mem_nil, or_false] at he
    rcases he with rfl | rfl
    · norm_num [RetEvent.nonnegWithdrawal]
    · trivial
  have hmain := c10_cost_basis c10Account 65 [.withdraw 100, .grow (1/10)] h1 h2 h3
  exact ⟨h1, h2, h3, hmain.1, hmain.2.1, hmain.2.2⟩

end Longview
